import Mathlib

/-!
Shallow embedding of the task-tracking service in `src/main.py`.

Calendar dates (`due_date`, "today") are modelled as integers counting days,
timestamps (`completed_at`, "now") as integers, and the single-table store as a
list of records in insertion order.  Each FastAPI handler becomes a pure
function; a `raise HTTPException` becomes returning `Except.error` together
with the unchanged store, since the handler raises before any `db.add` /
`db.commit` call, and a successful commit returns the mutated store.
-/

namespace TaskApp

abbrev Date := Int
abbrev Timestamp := Int

/-- The persisted row (`UserDB` in `main.py`): one table keyed by integer id. -/
structure TaskRec where
  id : Nat
  title : String
  description : Option String
  priority : String
  status : String
  due_date : Date
  completed_at : Option Timestamp
deriving Repr, DecidableEq

/-- The request body (`CreateTask` pydantic model) after defaults are applied:
`priority` and `status` are plain strings here. -/
structure CreateTask where
  title : String
  description : Option String
  priority : String
  status : String
  due_date : Date
  completed_at : Option Timestamp
deriving Repr, DecidableEq

/-- A request body as sent on the wire, before pydantic fills in defaults:
`priority`, `status`, `description` and `completed_at` may be omitted. -/
structure RawCreateTask where
  title : String
  description : Option String
  priority : Option String
  status : Option String
  due_date : Date
  completed_at : Option Timestamp
deriving Repr, DecidableEq

/-- Pydantic default application: `priority: Optional[str] = "high"`,
`status: Optional[str] = "pending"` (lines 34-35 of `main.py`). -/
def applyDefaults (r : RawCreateTask) : CreateTask :=
  { title := r.title
    description := r.description
    priority := r.priority.getD "high"
    status := r.status.getD "pending"
    due_date := r.due_date
    completed_at := r.completed_at }

abbrev Store := List TaskRec

/-- The error payload `HTTPException(status_code, detail)`. -/
structure ApiError where
  status_code : Nat
  detail : String
deriving Repr, DecidableEq

/-- The quota predicate `priority == "high" AND status == "pending"`. -/
def isHighPending (t : TaskRec) : Bool :=
  t.priority == "high" && t.status == "pending"

/-- The count `db.query(UserDB).filter(priority == "high", status == "pending").count()`. -/
def highPriorityPendingCount (db : Store) : Nat :=
  db.countP isHighPending

/-- Autoincrement primary key assigned by the storage engine on insert. -/
def nextId (db : Store) : Nat :=
  db.foldr (fun t m => max t.id m) 0 + 1

def validPriorities : List String := ["low", "medium", "high"]

def validStatuses : List String := ["pending", "in_progress", "completed"]

/-- Handler for `POST /tasks` (`create_task`, lines 63-90).  Returns the handler outcome
together with the resulting store (unchanged whenever an exception is raised,
because every `raise` precedes `db.add`). -/
def create_task (db : Store) (task : CreateTask) (today : Date) :
    Except ApiError TaskRec × Store :=
  let high_priority_count := highPriorityPendingCount db
  if task.due_date ≤ today then
    (.error ⟨400, "Possible nahi hein"⟩, db)
  else if task.priority ∉ validPriorities then
    (.error ⟨400, "Invalid priority value"⟩, db)
  else if task.priority = "high" ∧ 5 ≤ high_priority_count then
    (.error ⟨400, "Cannot create more than 5 high priority tasks"⟩, db)
  else if task.status ∉ validStatuses then
    (.error ⟨400, "Invalid status value"⟩, db)
  else
    let input_task : TaskRec :=
      { id := nextId db
        title := task.title
        description := task.description
        priority := task.priority
        status := task.status
        due_date := task.due_date
        completed_at := task.completed_at }
    (.ok input_task, db ++ [input_task])

/-- The overdue row predicate: `due_date < today AND status != "completed"`. -/
def isOverdue (today : Date) (t : TaskRec) : Bool :=
  decide (t.due_date < today) && t.status != "completed"

/-- Handler for `GET /tasks` (`get_tasks`, lines 93-116).  `if priority:` in Python skips
the filter when the parameter is absent or the empty string (falsy); likewise
for `status`, and `if overdue:` fires only on an explicit `true`.  FastAPI's
`Query` bounds (`page ≥ 1`, `1 ≤ limit ≤ 100`, defaults 1 and 10) are recorded
as hypotheses of the theorems below. -/
def get_tasks (db : Store) (today : Date) (priority status : Option String)
    (overdue : Option Bool) (page limit : Nat) : List TaskRec :=
  let q := db
  let q := match priority with
    | some p => if p = "" then q else q.filter (fun t => t.priority == p)
    | none => q
  let q := match status with
    | some s => if s = "" then q else q.filter (fun t => t.status == s)
    | none => q
  let q := if overdue = some true then q.filter (isOverdue today) else q
  let offset := (page - 1) * limit
  (q.drop offset).take limit

structure Stats where
  total : Nat
  pending : Nat
  in_progress : Nat
  completed : Nat
  overdue : Nat
  high_priority_pending : Nat
deriving Repr, DecidableEq

/-- Python's `n or 0` on an integer count. -/
def pyOrZero (n : Nat) : Nat := if n = 0 then 0 else n

/-- Handler for `GET /tasks/stats` (`get_task_stats`, lines 119-147). -/
def get_task_stats (db : Store) (today : Date) : Stats :=
  let total := db.length
  let pending := db.countP (fun t => t.status == "pending")
  let in_progress := db.countP (fun t => t.status == "in_progress")
  let completed := db.countP (fun t => t.status == "completed")
  let overdue := db.countP (isOverdue today)
  let high_priority_pending := highPriorityPendingCount db
  { total := pyOrZero total
    pending := pyOrZero pending
    in_progress := pyOrZero in_progress
    completed := pyOrZero completed
    overdue := pyOrZero overdue
    high_priority_pending := pyOrZero high_priority_pending }

/-- The lookup `db.query(UserDB).filter(UserDB.id == task_id).first()`. -/
def firstById (db : Store) (task_id : Nat) : Option TaskRec :=
  db.find? (fun t => t.id == task_id)

/-- Handler for `GET /tasks/{task_id}` (`get_task`, lines 150-155). -/
def get_task (db : Store) (task_id : Nat) : Except ApiError TaskRec :=
  match firstById db task_id with
  | none => .error ⟨404, "Task not found"⟩
  | some t => .ok t

/-- The final field-overwrite-and-commit block of `update_task` (lines
203-210): every mutable field of the fetched row is replaced by the request's
value, `completed_at` by `ca` (which the transition logic may have forced). -/
def commitUpdate (db : Store) (task_id : Nat) (task : TaskRec)
    (updated_task : CreateTask) (ca : Option Timestamp) :
    Except ApiError TaskRec × Store :=
  let t2 : TaskRec :=
    { id := task.id
      title := updated_task.title
      description := updated_task.description
      priority := updated_task.priority
      status := updated_task.status
      due_date := updated_task.due_date
      completed_at := ca }
  (.ok t2, db.map (fun t => if t.id == task_id then t2 else t))

/-- Handler for `PUT /tasks/{task_id}` (`update_task`, lines 158-211).  `now` is the value
`datetime.now()` would produce during the call. -/
def update_task (db : Store) (task_id : Nat) (updated_task : CreateTask)
    (today : Date) (now : Timestamp) : Except ApiError TaskRec × Store :=
  let high_priority_count := highPriorityPendingCount db
  match firstById db task_id with
  | none => (.error ⟨404, "Task not found"⟩, db)
  | some task =>
    if updated_task.due_date ≤ today then
      (.error ⟨400, "Possible nahi hein"⟩, db)
    else if updated_task.priority ∉ validPriorities then
      (.error ⟨400, "Invalid priority value"⟩, db)
    else if updated_task.priority = "high" ∧ 5 ≤ high_priority_count then
      (.error ⟨400,
        "Cannot update to high priority task as there are already 5 high priority tasks"⟩,
        db)
    else if task.status = "pending" ∧ updated_task.status = "in_progress" then
      commitUpdate db task_id task updated_task updated_task.completed_at
    else if task.status = "in_progress" ∧ updated_task.status = "completed" then
      commitUpdate db task_id task updated_task (some now)
    else if task.status = "completed" ∧
        updated_task.status ∈ (["pending", "in_progress"] : List String) then
      (.error ⟨400,
        "Cannot revert status from completed to pending or in_progress"⟩, db)
    else if updated_task.status ∉ validStatuses then
      (.error ⟨400, "Invalid status value"⟩, db)
    else
      (.error ⟨400, "Invalid status transition"⟩, db)

/-- Handler for `DELETE /tasks/{task_id}` (`delete_task`, lines 214-221). -/
def delete_task (db : Store) (task_id : Nat) : Except ApiError String × Store :=
  match firstById db task_id with
  | none => (.error ⟨404, "Task not found"⟩, db)
  | some _ => (.ok "Task deleted successfully", db.eraseP (fun t => t.id == task_id))

/-- The record that a successful `create_task` persists. -/
def insertedRec (db : Store) (task : CreateTask) : TaskRec :=
  { id := nextId db
    title := task.title
    description := task.description
    priority := task.priority
    status := task.status
    due_date := task.due_date
    completed_at := task.completed_at }

/-- Outcome of one row of the §4.2 status transition table.  `allowed b` means
the update goes through, with `completed_at` forced to the current timestamp
when `b = true`. -/
inductive TransitionOutcome where
  | allowed (forceNow : Bool)
  | cannotRevert
  | invalidStatus
  | invalidTransition
deriving Repr, DecidableEq

/-- The §4.2 transition table of the spec, keyed by
(current stored status, requested status):
pending→in_progress allowed with no side effect; in_progress→completed allowed
forcing `completed_at` to now; completed→pending-or-in_progress rejected as
"cannot revert"; a requested status outside the enumeration rejected as
"invalid status"; every other combination rejected as "invalid status
transition". -/
def transition_table (current requested : String) : TransitionOutcome :=
  if current = "pending" ∧ requested = "in_progress" then .allowed false
  else if current = "in_progress" ∧ requested = "completed" then .allowed true
  else if current = "completed" ∧
      requested ∈ (["pending", "in_progress"] : List String) then .cannotRevert
  else if requested ∉ validStatuses then .invalidStatus
  else .invalidTransition

/-- A create input whose title is the empty string and whose other fields pass
every validation of `create_task`. -/
def emptyTitleInput : CreateTask :=
  { title := ""
    description := none
    priority := "low"
    status := "pending"
    due_date := 1
    completed_at := none }

/-- A stored task with status `in_progress`, used in concrete instances. -/
def tInProgress : TaskRec :=
  { id := 1
    title := "t"
    description := none
    priority := "low"
    status := "in_progress"
    due_date := 5
    completed_at := none }

/-- A stored task with status `pending`, used in concrete instances. -/
def tPending : TaskRec :=
  { id := 1
    title := "t"
    description := none
    priority := "low"
    status := "pending"
    due_date := 5
    completed_at := none }

/-- An update request asking for status `completed`. -/
def inpCompleted : CreateTask :=
  { title := "t"
    description := none
    priority := "low"
    status := "completed"
    due_date := 5
    completed_at := none }

/-- An update request asking for status `in_progress` while also supplying a
`completed_at` value of its own. -/
def inpInProgress42 : CreateTask :=
  { title := "t"
    description := none
    priority := "low"
    status := "in_progress"
    due_date := 5
    completed_at := some 42 }

/-- A high-priority pending stored task with the given id. -/
def highPendingRec (i : Nat) : TaskRec :=
  { id := i
    title := "t"
    description := none
    priority := "high"
    status := "pending"
    due_date := 5
    completed_at := none }

/-- A store holding exactly five high-priority pending tasks. -/
def dbFiveHigh : Store :=
  [highPendingRec 1, highPendingRec 2, highPendingRec 3, highPendingRec 4,
    highPendingRec 5]

/-- A store holding exactly four high-priority pending tasks. -/
def dbFourHigh : Store :=
  [highPendingRec 1, highPendingRec 2, highPendingRec 3, highPendingRec 4]

/-- A create request for a high-priority pending task with a future due date. -/
def inpHighPending : CreateTask :=
  { title := "t"
    description := none
    priority := "high"
    status := "pending"
    due_date := 5
    completed_at := none }

/-- A request body omitting both `priority` and `status`. -/
def rawDefaulted : RawCreateTask :=
  { title := "t"
    description := none
    priority := none
    status := none
    due_date := 5
    completed_at := none }

lemma create_task_success (db : Store) (task : CreateTask) (today : Date)
    (hdue : today < task.due_date)
    (hpri : task.priority ∈ validPriorities)
    (hquota : task.priority = "high" → highPriorityPendingCount db < 5)
    (hstat : task.status ∈ validStatuses) :
    create_task db task today = (.ok (insertedRec db task), db ++ [insertedRec db task]) := by
  simp only [create_task, insertedRec]
  rw [if_neg (not_le.mpr hdue), if_neg (by simp [hpri]), if_neg (by
    rintro ⟨h1, h2⟩; exact absurd (hquota h1) (not_lt.mpr h2)), if_neg (by simp [hstat])]

/-- C3: `create_task` checks due date, then priority, then (for high priority)
the quota, then status, and the first failing check determines the error; with
`due_date ≤ today` the due-date error is reported regardless of all other
fields. -/
theorem create_validation_order (db : Store) (task : CreateTask) (today : Date) :
    (task.due_date ≤ today →
      create_task db task today = (.error ⟨400, "Possible nahi hein"⟩, db))
    ∧ (today < task.due_date → task.priority ∉ validPriorities →
      create_task db task today = (.error ⟨400, "Invalid priority value"⟩, db))
    ∧ (today < task.due_date → task.priority = "high" →
      5 ≤ highPriorityPendingCount db →
      create_task db task today =
        (.error ⟨400, "Cannot create more than 5 high priority tasks"⟩, db))
    ∧ (today < task.due_date → task.priority ∈ validPriorities →
      (task.priority = "high" → highPriorityPendingCount db < 5) →
      task.status ∉ validStatuses →
      create_task db task today = (.error ⟨400, "Invalid status value"⟩, db))
    ∧ (today < task.due_date → task.priority ∈ validPriorities →
      (task.priority = "high" → highPriorityPendingCount db < 5) →
      task.status ∈ validStatuses →
      create_task db task today =
        (.ok (insertedRec db task), db ++ [insertedRec db task])) := by
  refine ⟨?_, ?_, ?_, ?_, ?_⟩
  · intro hdue
    simp only [create_task]
    rw [if_pos hdue]
  · intro hdue hpri
    simp only [create_task]
    rw [if_neg (not_le.mpr hdue), if_pos hpri]
  · intro hdue hpri hquota
    simp only [create_task]
    rw [if_neg (not_le.mpr hdue), if_neg (by simp [hpri, validPriorities]),
      if_pos ⟨hpri, hquota⟩]
  · intro hdue hpri hquota hstat
    simp only [create_task]
    rw [if_neg (not_le.mpr hdue), if_neg (by simp [hpri]), if_neg (by
      rintro ⟨h1, h2⟩; exact absurd (hquota h1) (not_lt.mpr h2)), if_pos hstat]
  · intro hdue hpri hquota hstat
    exact create_task_success db task today hdue hpri hquota hstat

/-- Witness for C3 at a concrete input: an input whose `due_date` is not in
the future is rejected with the due-date error. -/
theorem create_validation_order_witness :
    create_task [] ⟨"a", none, "low", "pending", 0, none⟩ 0 =
      (.error ⟨400, "Possible nahi hein"⟩, []) :=
  (create_validation_order [] ⟨"a", none, "low", "pending", 0, none⟩ 0).1 (by decide)

/-- C8: every rejection of `create_task` or `update_task` leaves the store
untouched: validation failures are reported before any mutation. -/
theorem no_partial_write_on_rejection (db : Store) :
    (∀ (task : CreateTask) (today : Date) (e : ApiError),
      (create_task db task today).1 = .error e → (create_task db task today).2 = db)
    ∧ (∀ (task_id : Nat) (input : CreateTask) (today : Date) (now : Timestamp)
        (e : ApiError),
      (update_task db task_id input today now).1 = .error e →
        (update_task db task_id input today now).2 = db) := by
  constructor
  · intro task today e h
    simp only [create_task] at h ⊢
    split_ifs at h ⊢ <;> simp_all
  · intro task_id input today now e h
    simp only [update_task] at h ⊢
    cases hfind : firstById db task_id with
    | none => simp [hfind]
    | some task =>
      simp only [hfind] at h ⊢
      split_ifs at h ⊢ <;> simp_all [commitUpdate]

/-- Witness for C8: a concrete rejected create call leaves the store as it
was. -/
theorem no_partial_write_on_rejection_witness :
    (create_task [] ⟨"a", none, "low", "pending", 0, none⟩ 0).2 = [] :=
  (no_partial_write_on_rejection []).1 ⟨"a", none, "low", "pending", 0, none⟩ 0
    ⟨400, "Possible nahi hein"⟩ rfl

/-- C9 counterexample: `create_task` persists a task whose title is the empty
string — the non-empty-title constraint is not enforced anywhere in the
service. -/
theorem create_accepts_empty_title_cex :
    (create_task [] emptyTitleInput 0).1 =
        .ok ⟨1, "", none, "low", "pending", 1, none⟩
    ∧ (create_task [] emptyTitleInput 0).2 =
        [⟨1, "", none, "low", "pending", 1, none⟩] :=
  ⟨rfl, rfl⟩

/-- C9 amended: `title` is a required field of the request model, but its
non-emptiness is not enforced: every create input with an empty title that
passes the due-date, priority, quota and status checks is persisted with the
empty title. -/
theorem create_accepts_empty_title (db : Store) (task : CreateTask) (today : Date)
    (htitle : task.title = "")
    (hdue : today < task.due_date)
    (hpri : task.priority ∈ validPriorities)
    (hquota : task.priority = "high" → highPriorityPendingCount db < 5)
    (hstat : task.status ∈ validStatuses) :
    ∃ t : TaskRec, (create_task db task today).1 = .ok t ∧ t.title = ""
      ∧ (create_task db task today).2 = db ++ [t] := by
  refine ⟨insertedRec db task, ?_, htitle, ?_⟩ <;>
    rw [create_task_success db task today hdue hpri hquota hstat]

/-- Witness for the amended C9 at a concrete input. -/
theorem create_accepts_empty_title_witness :
    ∃ t : TaskRec, (create_task [] emptyTitleInput 0).1 = .ok t ∧ t.title = ""
      ∧ (create_task [] emptyTitleInput 0).2 = [] ++ [t] :=
  create_accepts_empty_title [] emptyTitleInput 0 rfl (by decide) (by decide)
    (by intro h; simp [emptyTitleInput] at h) (by decide)

/-- On an existing task, once the due-date, priority and quota checks pass,
`update_task` reduces to exactly the transition `if`-chain of lines 182-201. -/
lemma update_task_transition (db : Store) (task_id : Nat) (input : CreateTask)
    (today : Date) (now : Timestamp) (task : TaskRec)
    (hfind : firstById db task_id = some task)
    (hdue : today < input.due_date)
    (hpri : input.priority ∈ validPriorities)
    (hquota : input.priority = "high" → highPriorityPendingCount db < 5) :
    update_task db task_id input today now =
      (if task.status = "pending" ∧ input.status = "in_progress" then
        commitUpdate db task_id task input input.completed_at
      else if task.status = "in_progress" ∧ input.status = "completed" then
        commitUpdate db task_id task input (some now)
      else if task.status = "completed" ∧
          input.status ∈ (["pending", "in_progress"] : List String) then
        (.error ⟨400,
          "Cannot revert status from completed to pending or in_progress"⟩, db)
      else if input.status ∉ validStatuses then
        (.error ⟨400, "Invalid status value"⟩, db)
      else
        (.error ⟨400, "Invalid status transition"⟩, db)) := by
  simp only [update_task, hfind]
  rw [if_neg (not_le.mpr hdue), if_neg (by simp [hpri]), if_neg (by
    rintro ⟨h1, h2⟩; exact absurd (hquota h1) (not_lt.mpr h2))]

/-- C1: for every update of an existing task that passes the due-date,
priority and quota checks, the outcome is exactly the §4.2 transition table
applied to (current stored status, requested status): allowed transitions
commit with `completed_at` forced to `now` exactly on in_progress→completed,
and each rejected combination yields the corresponding distinguishing
error. -/
theorem update_matches_transition_table (db : Store) (task_id : Nat)
    (input : CreateTask) (today : Date) (now : Timestamp) (task : TaskRec)
    (hfind : firstById db task_id = some task)
    (hdue : today < input.due_date)
    (hpri : input.priority ∈ validPriorities)
    (hquota : input.priority = "high" → highPriorityPendingCount db < 5) :
    (∀ b : Bool, transition_table task.status input.status = .allowed b →
      update_task db task_id input today now =
        commitUpdate db task_id task input
          (if b then some now else input.completed_at))
    ∧ (transition_table task.status input.status = .cannotRevert →
      update_task db task_id input today now =
        (.error ⟨400,
          "Cannot revert status from completed to pending or in_progress"⟩, db))
    ∧ (transition_table task.status input.status = .invalidStatus →
      update_task db task_id input today now =
        (.error ⟨400, "Invalid status value"⟩, db))
    ∧ (transition_table task.status input.status = .invalidTransition →
      update_task db task_id input today now =
        (.error ⟨400, "Invalid status transition"⟩, db)) := by
  rw [update_task_transition db task_id input today now task hfind hdue hpri hquota]
  simp only [transition_table]
  refine ⟨?_, ?_, ?_, ?_⟩
  · intro b heq
    split_ifs at heq ⊢ with h1 h2 h3 h4 <;> simp_all
  · intro heq
    split_ifs at heq ⊢ with h1 h2 h3 h4 <;> simp_all
  · intro heq
    split_ifs at heq ⊢ with h1 h2 h3 h4 <;> simp_all
  · intro heq
    split_ifs at heq ⊢ with h1 h2 h3 h4 <;> simp_all

/-- Witness for C1: updating a concrete in_progress task to completed commits
with `completed_at` forced to the call timestamp. -/
theorem update_matches_transition_table_witness :
    update_task [tInProgress] 1 inpCompleted 0 100 =
      commitUpdate [tInProgress] 1 tInProgress inpCompleted (some 100) :=
  (update_matches_transition_table [tInProgress] 1 inpCompleted 0 100
    tInProgress rfl (by decide) (by decide) (by decide)).1 true rfl

/-- The quota rejection of `update_task` (lines 175-180): for an existing
task, once the due date is valid, a requested high priority is rejected
whenever the store-wide high-priority-pending count is at least 5. -/
lemma update_task_quota_error (db : Store) (task_id : Nat) (input : CreateTask)
    (today : Date) (now : Timestamp) (task : TaskRec)
    (hfind : firstById db task_id = some task)
    (hdue : today < input.due_date)
    (hp : input.priority = "high")
    (hc : 5 ≤ highPriorityPendingCount db) :
    update_task db task_id input today now =
      (.error ⟨400,
        "Cannot update to high priority task as there are already 5 high priority tasks"⟩,
        db) := by
  simp only [update_task, hfind]
  rw [if_neg (not_le.mpr hdue), if_neg (by simp [hp, validPriorities]),
    if_pos ⟨hp, hc⟩]

/-- C4: the quota check of `update_task` counts high-priority pending tasks
across the whole store, without excluding the record being updated, and
rejects whenever that count is at least 5 and the requested priority is
high. -/
theorem update_quota_counts_whole_store (db : Store) (task_id : Nat)
    (input : CreateTask) (today : Date) (now : Timestamp) (task : TaskRec)
    (hfind : firstById db task_id = some task)
    (hdue : today < input.due_date)
    (hp : input.priority = "high")
    (hc : 5 ≤ highPriorityPendingCount db) :
    update_task db task_id input today now =
      (.error ⟨400,
        "Cannot update to high priority task as there are already 5 high priority tasks"⟩,
        db) :=
  update_task_quota_error db task_id input today now task hfind hdue hp hc

/-- Witness for C4: with exactly five high-priority pending tasks stored,
updating one of them while keeping priority high is rejected, because the
record being updated is counted against its own quota. -/
theorem update_quota_counts_whole_store_witness :
    update_task dbFiveHigh 1 inpHighPending 0 100 =
      (.error ⟨400,
        "Cannot update to high priority task as there are already 5 high priority tasks"⟩,
        dbFiveHigh) :=
  update_quota_counts_whole_store dbFiveHigh 1 inpHighPending 0 100
    (highPendingRec 1) rfl (by decide) rfl (by decide)

/-- Inversion of a successful `update_task`: the resulting store replaces the
matching row, and the committed record either comes from the
pending→in_progress branch (status `in_progress`, `completed_at` copied from
the request, lines 182-183 and 203-208) or from the in_progress→completed
branch (status `completed`, `completed_at` forced to `now`, lines 185-186). -/
lemma update_task_ok (db : Store) (task_id : Nat) (input : CreateTask)
    (today : Date) (now : Timestamp) (t2 : TaskRec) (db2 : Store)
    (hok : update_task db task_id input today now = (.ok t2, db2)) :
    db2 = db.map (fun t => if t.id == task_id then t2 else t)
    ∧ (t2.status = "in_progress" ∧ t2.completed_at = input.completed_at
      ∨ t2.status = "completed" ∧ t2.completed_at = some now) := by
  cases hfind : firstById db task_id with
  | none => simp [update_task, hfind] at hok
  | some task =>
    simp only [update_task, hfind] at hok
    by_cases hdue : input.due_date ≤ today
    · rw [if_pos hdue] at hok; exact absurd hok (by simp)
    rw [if_neg hdue] at hok
    by_cases hpri : input.priority ∉ validPriorities
    · rw [if_pos hpri] at hok; exact absurd hok (by simp)
    rw [if_neg hpri] at hok
    by_cases hq : input.priority = "high" ∧ 5 ≤ highPriorityPendingCount db
    · rw [if_pos hq] at hok; exact absurd hok (by simp)
    rw [if_neg hq] at hok
    by_cases h1 : task.status = "pending" ∧ input.status = "in_progress"
    · rw [if_pos h1] at hok
      simp only [commitUpdate, Prod.mk.injEq, Except.ok.injEq] at hok
      obtain ⟨ht, hdb⟩ := hok
      subst ht
      exact ⟨hdb.symm, .inl ⟨h1.2, rfl⟩⟩
    rw [if_neg h1] at hok
    by_cases h2 : task.status = "in_progress" ∧ input.status = "completed"
    · rw [if_pos h2] at hok
      simp only [commitUpdate, Prod.mk.injEq, Except.ok.injEq] at hok
      obtain ⟨ht, hdb⟩ := hok
      subst ht
      exact ⟨hdb.symm, .inr ⟨h2.2, rfl⟩⟩
    rw [if_neg h2] at hok
    split_ifs at hok <;> exact absurd hok (by simp)

/-- C5 counterexample: updating a concrete pending task to in_progress while
supplying `completed_at = 42` succeeds and stores a task whose status is not
completed but whose `completed_at` is non-null — the caller-supplied value is
written through on the pending→in_progress branch, not only at creation. -/
theorem completed_at_leak_cex :
    update_task [tPending] 1 inpInProgress42 0 100 =
      (.ok ⟨1, "t", none, "low", "in_progress", 5, some 42⟩,
        [⟨1, "t", none, "low", "in_progress", 5, some 42⟩]) := rfl

/-- C5 amended: after a successful update, `completed_at` is forced to the
call timestamp exactly on the in_progress→completed transition, while on the
only other allowed transition (pending→in_progress) the caller-supplied
`completed_at` — possibly non-null — is stored verbatim; so besides creation,
an update can also yield a non-completed task with non-null `completed_at`. -/
theorem update_completed_at_characterization (db : Store) (task_id : Nat)
    (input : CreateTask) (today : Date) (now : Timestamp) (t2 : TaskRec)
    (db2 : Store)
    (hok : update_task db task_id input today now = (.ok t2, db2)) :
    t2.status = "in_progress" ∧ t2.completed_at = input.completed_at
    ∨ t2.status = "completed" ∧ t2.completed_at = some now :=
  (update_task_ok db task_id input today now t2 db2 hok).2

/-- Witness for the amended C5 at the concrete counterexample input. -/
theorem update_completed_at_characterization_witness :
    (TaskRec.status ⟨1, "t", none, "low", "in_progress", 5, some 42⟩ = "in_progress"
      ∧ TaskRec.completed_at ⟨1, "t", none, "low", "in_progress", 5, some 42⟩ =
        inpInProgress42.completed_at)
    ∨ (TaskRec.status ⟨1, "t", none, "low", "in_progress", 5, some 42⟩ = "completed"
      ∧ TaskRec.completed_at ⟨1, "t", none, "low", "in_progress", 5, some 42⟩ =
        some 100) :=
  update_completed_at_characterization [tPending] 1 inpInProgress42 0 100
    ⟨1, "t", none, "low", "in_progress", 5, some 42⟩
    [⟨1, "t", none, "low", "in_progress", 5, some 42⟩] rfl

/-- Inversion of a successful `create_task`: the new record is appended and
the quota condition was not met at insertion time. -/
lemma create_task_ok (db : Store) (task : CreateTask) (today : Date)
    (t : TaskRec) (db2 : Store)
    (hok : create_task db task today = (.ok t, db2)) :
    t = insertedRec db task ∧ db2 = db ++ [t]
    ∧ ¬(task.priority = "high" ∧ 5 ≤ highPriorityPendingCount db) := by
  simp only [create_task] at hok
  by_cases hdue : task.due_date ≤ today
  · rw [if_pos hdue] at hok; exact absurd hok (by simp)
  rw [if_neg hdue] at hok
  by_cases hpri : task.priority ∉ validPriorities
  · rw [if_pos hpri] at hok; exact absurd hok (by simp)
  rw [if_neg hpri] at hok
  by_cases hq : task.priority = "high" ∧ 5 ≤ highPriorityPendingCount db
  · rw [if_pos hq] at hok; exact absurd hok (by simp)
  rw [if_neg hq] at hok
  by_cases hstat : task.status ∉ validStatuses
  · rw [if_pos hstat] at hok; exact absurd hok (by simp)
  rw [if_neg hstat] at hok
  simp only [Prod.mk.injEq, Except.ok.injEq] at hok
  obtain ⟨ht, hdb⟩ := hok
  subst ht
  exact ⟨rfl, hdb.symm, hq⟩

/-- Replacing each element by its image under `f` cannot increase the count of
a predicate that `f` never newly establishes. -/
lemma countP_map_le {α : Type} (p : α → Bool) (f : α → α) (l : List α)
    (h : ∀ x ∈ l, p (f x) = true → p x = true) :
    (l.map f).countP p ≤ l.countP p := by
  induction l with
  | nil => simp
  | cons x xs ih =>
    have hx := h x (List.mem_cons_self x xs)
    have ihs := ih (fun y hy => h y (List.mem_cons_of_mem x hy))
    simp only [List.map_cons, List.countP_cons]
    cases hpf : p (f x) <;> cases hpx : p x <;> simp_all <;> omega

/-- C2: the ≤5 high-priority-pending invariant is preserved by create, update
and delete under sequential execution: a successful create keeps the count at
or below 5, successful updates and deletes never increase it, a high-priority
create is rejected with the quota error when 5 such tasks already exist (the
count taken before insertion), and with exactly 4 existing a fifth
high-priority pending create succeeds and brings the count to 5. -/
theorem high_priority_quota_invariant (db : Store) (today : Date) :
    (∀ (task : CreateTask) (t : TaskRec) (db2 : Store),
      create_task db task today = (.ok t, db2) →
      highPriorityPendingCount db ≤ 5 → highPriorityPendingCount db2 ≤ 5)
    ∧ (∀ (task_id : Nat) (input : CreateTask) (now : Timestamp) (t2 : TaskRec)
        (db2 : Store),
      update_task db task_id input today now = (.ok t2, db2) →
      highPriorityPendingCount db2 ≤ highPriorityPendingCount db)
    ∧ (∀ (task_id : Nat) (msg : String) (db2 : Store),
      delete_task db task_id = (.ok msg, db2) →
      highPriorityPendingCount db2 ≤ highPriorityPendingCount db)
    ∧ (∀ task : CreateTask, task.priority = "high" →
      5 ≤ highPriorityPendingCount db → today < task.due_date →
      create_task db task today =
        (.error ⟨400, "Cannot create more than 5 high priority tasks"⟩, db))
    ∧ (∀ task : CreateTask, task.priority = "high" → task.status = "pending" →
      highPriorityPendingCount db = 4 → today < task.due_date →
      create_task db task today =
        (.ok (insertedRec db task), db ++ [insertedRec db task])
      ∧ highPriorityPendingCount (db ++ [insertedRec db task]) = 5) := by
  refine ⟨?_, ?_, ?_, ?_, ?_⟩
  · intro task t db2 hok hle
    obtain ⟨ht, hdb, hq⟩ := create_task_ok db task today t db2 hok
    subst hdb
    simp only [highPriorityPendingCount, List.countP_append] at *
    by_cases hhp : isHighPending t = true
    · have hp2 : task.priority = "high" ∧ task.status = "pending" := by
        subst ht
        simpa [isHighPending, insertedRec] using hhp
      have : ¬ 5 ≤ List.countP isHighPending db := fun hc => hq ⟨hp2.1, hc⟩
      simp [hhp, List.countP_cons]
      omega
    · simp only [Bool.not_eq_true] at hhp
      simp [List.countP_cons, hhp]
      omega
  · intro task_id input now t2 db2 hok
    obtain ⟨hdb, hcase⟩ := update_task_ok db task_id input today now t2 db2 hok
    subst hdb
    apply countP_map_le
    intro x _ hpx
    by_cases hid : (x.id == task_id) = true
    · rw [if_pos hid] at hpx
      exfalso
      rcases hcase with ⟨hs, _⟩ | ⟨hs, _⟩ <;>
        simp [isHighPending, hs] at hpx
    · rwa [if_neg hid] at hpx
  · intro task_id msg db2 hok
    simp only [delete_task] at hok
    cases hfind : firstById db task_id with
    | none => simp [hfind] at hok
    | some task =>
      simp only [hfind, Prod.mk.injEq] at hok
      rw [← hok.2]
      exact (List.eraseP_sublist db).countP_le isHighPending
  · intro task hp hc hdue
    simp only [create_task]
    rw [if_neg (not_le.mpr hdue), if_neg (by simp [hp, validPriorities]),
      if_pos ⟨hp, hc⟩]
  · intro task hp hs hc hdue
    constructor
    · exact create_task_success db task today hdue (by simp [hp, validPriorities])
        (fun _ => by omega) (by simp [hs, validStatuses])
    · simp only [highPriorityPendingCount, List.countP_append,
        List.countP_cons, List.countP_nil] at *
      have : isHighPending (insertedRec db task) = true := by
        simp [isHighPending, insertedRec, hp, hs]
      simp [this]
      omega

/-- Witness for C2: with five high-priority pending tasks stored the sixth
high-priority create is rejected, and with four stored the fifth succeeds,
bringing the count to exactly 5. -/
theorem high_priority_quota_invariant_witness :
    create_task dbFiveHigh inpHighPending 0 =
      (.error ⟨400, "Cannot create more than 5 high priority tasks"⟩, dbFiveHigh)
    ∧ (create_task dbFourHigh inpHighPending 0 =
        (.ok (insertedRec dbFourHigh inpHighPending),
          dbFourHigh ++ [insertedRec dbFourHigh inpHighPending])
      ∧ highPriorityPendingCount
          (dbFourHigh ++ [insertedRec dbFourHigh inpHighPending]) = 5) :=
  ⟨(high_priority_quota_invariant dbFiveHigh 0).2.2.2.1 inpHighPending rfl
      (by decide) (by decide),
    (high_priority_quota_invariant dbFourHigh 0).2.2.2.2 inpHighPending rfl rfl
      (by decide) (by decide)⟩

/-- C6: `get_tasks` with `overdue = true` returns exactly the tasks with
`due_date < today` and status not completed, windowed by the offset
`(page - 1) * limit` and `limit`; and when priority and status filters are
supplied as well, all three filters are combined with AND.  The hypotheses
record FastAPI's `Query` bounds (`page ≥ 1`, `1 ≤ limit ≤ 100`). -/
theorem list_overdue_and_pagination (db : Store) (today : Date)
    (page limit : Nat) (hpage : 1 ≤ page) (hlim1 : 1 ≤ limit)
    (hlim2 : limit ≤ 100) :
    get_tasks db today none none (some true) page limit =
      ((db.filter (isOverdue today)).drop ((page - 1) * limit)).take limit
    ∧ ∀ p s : String, p ≠ "" → s ≠ "" →
      get_tasks db today (some p) (some s) (some true) page limit =
        ((db.filter (fun t =>
          isOverdue today t && (t.status == s && t.priority == p))).drop
            ((page - 1) * limit)).take limit := by
  constructor
  · rfl
  · intro p s hp hs
    simp only [get_tasks, if_neg hp, if_neg hs, if_pos rfl,
      List.filter_filter, ite_true, if_true, eq_self_iff_true]

/-- Witness for C6 on a concrete store: the first page of overdue tasks. -/
theorem list_overdue_and_pagination_witness :
    get_tasks [tPending] 10 none none (some true) 1 10 =
      ((([tPending] : Store).filter (isOverdue 10)).drop ((1 - 1) * 10)).take 10 :=
  (list_overdue_and_pagination [tPending] 10 1 10 (by decide) (by decide)
    (by decide)).1

lemma pyOrZero_eq (n : Nat) : pyOrZero n = n := by
  unfold pyOrZero; split <;> omega

/-- When every stored status lies in the enumeration, the three status counts
partition the store. -/
lemma count_status_partition (db : Store)
    (hvalid : ∀ t ∈ db, t.status ∈ validStatuses) :
    db.countP (fun t => t.status == "pending")
      + db.countP (fun t => t.status == "in_progress")
      + db.countP (fun t => t.status == "completed") = db.length := by
  induction db with
  | nil => simp
  | cons t ts ih =>
    have ht := hvalid t (List.mem_cons_self t ts)
    have ihs := ih (fun y hy => hvalid y (List.mem_cons_of_mem t hy))
    simp only [validStatuses, List.mem_cons, List.mem_singleton,
      List.not_mem_nil, or_false] at ht
    simp only [List.countP_cons, List.length_cons]
    rcases ht with h | h | h <;> simp [h] <;> omega

/-- C7: whenever every stored task's status is one of the three enumeration
values, the stats counts satisfy pending + in_progress + completed = total,
and on an empty store all six counts are 0 rather than erroring. -/
theorem stats_partition_and_zero_defaults (db : Store) (today : Date)
    (hvalid : ∀ t ∈ db, t.status ∈ validStatuses) :
    ((get_task_stats db today).pending + (get_task_stats db today).in_progress
      + (get_task_stats db today).completed = (get_task_stats db today).total)
    ∧ get_task_stats [] today =
      { total := 0, pending := 0, in_progress := 0, completed := 0,
        overdue := 0, high_priority_pending := 0 } := by
  constructor
  · simp only [get_task_stats, pyOrZero_eq]
    exact count_status_partition db hvalid
  · rfl

/-- Witness for C7 on a concrete two-task store. -/
theorem stats_partition_and_zero_defaults_witness :
    ((get_task_stats [tPending, tInProgress] 0).pending
      + (get_task_stats [tPending, tInProgress] 0).in_progress
      + (get_task_stats [tPending, tInProgress] 0).completed
      = (get_task_stats [tPending, tInProgress] 0).total)
    ∧ get_task_stats [] 0 =
      { total := 0, pending := 0, in_progress := 0, completed := 0,
        overdue := 0, high_priority_pending := 0 } :=
  stats_partition_and_zero_defaults [tPending, tInProgress] 0 (by decide)

/-- C10: a request body omitting `priority` and `status` is treated exactly as
`priority = "high"`, `status = "pending"` (the pydantic defaults): it is
subject to the high-priority-pending quota check on create and on update, and
when a create is accepted the stored task is a high-priority pending task. -/
theorem omitted_fields_default_to_high_pending (r : RawCreateTask) (db : Store)
    (today : Date) (hp : r.priority = none) (hs : r.status = none) :
    (applyDefaults r).priority = "high"
    ∧ (applyDefaults r).status = "pending"
    ∧ (5 ≤ highPriorityPendingCount db → today < r.due_date →
      create_task db (applyDefaults r) today =
        (.error ⟨400, "Cannot create more than 5 high priority tasks"⟩, db))
    ∧ (∀ (t : TaskRec) (db2 : Store),
      create_task db (applyDefaults r) today = (.ok t, db2) →
      t.priority = "high" ∧ t.status = "pending")
    ∧ (∀ (task_id : Nat) (now : Timestamp) (task : TaskRec),
      firstById db task_id = some task → today < r.due_date →
      5 ≤ highPriorityPendingCount db →
      update_task db task_id (applyDefaults r) today now =
        (.error ⟨400,
          "Cannot update to high priority task as there are already 5 high priority tasks"⟩,
          db)) := by
  have hpd : (applyDefaults r).priority = "high" := by simp [applyDefaults, hp]
  have hsd : (applyDefaults r).status = "pending" := by simp [applyDefaults, hs]
  refine ⟨hpd, hsd, ?_, ?_, ?_⟩
  · intro hc hdue
    simp only [create_task]
    rw [if_neg (not_le.mpr (by simpa [applyDefaults] using hdue)),
      if_neg (by simp [hpd, validPriorities]), if_pos ⟨hpd, hc⟩]
  · intro t db2 hok
    obtain ⟨ht, _, _⟩ := create_task_ok db (applyDefaults r) today t db2 hok
    subst ht
    exact ⟨hpd, hsd⟩
  · intro task_id now task hfind hdue hc
    exact update_task_quota_error db task_id (applyDefaults r) today now task
      hfind (by simpa [applyDefaults] using hdue) hpd hc

/-- Witness for C10: the concrete defaulted request against a store of five
high-priority pending tasks is rejected by the quota. -/
theorem omitted_fields_default_to_high_pending_witness :
    (applyDefaults rawDefaulted).priority = "high"
    ∧ (applyDefaults rawDefaulted).status = "pending"
    ∧ create_task dbFiveHigh (applyDefaults rawDefaulted) 0 =
      (.error ⟨400, "Cannot create more than 5 high priority tasks"⟩,
        dbFiveHigh) :=
  have h := omitted_fields_default_to_high_pending rawDefaulted dbFiveHigh 0
    rfl rfl
  ⟨h.1, h.2.1, h.2.2.1 (by decide) (by decide)⟩

end TaskApp
